import Mathlib

/-!
Formal model of the HEX_stm hexapod motion-control core.

The development shallowly embeds the C sources of the repository:
`hexapod_kinematics.c` (inverse kinematics), `wave_gait.c`, `bipedal_gait.c`,
`tripod_gait.c` (gait engines), `test_positions.c` and `pca9685.c`
(actuation adapters).  Float arithmetic of the C code is modelled by exact
real arithmetic (`ℝ`) for the kinematics, and by exact rational arithmetic
(`ℚ`) for the gait-trajectory bookkeeping, which only uses field operations.
Hardware/transport calls (I2C writes, delays, printf logging) are abstracted:
a servo write is modelled as the pair (channel, angle) that would be sent.
-/

namespace HexStm

/-! ## Geometry constants, from `hexapod_kinematics.h` -/

/-- Hip segment length L1 [cm] (`#define L1 5.5f`). -/
noncomputable def L1 : ℝ := 5.5

/-- Thigh segment length L2 [cm] (`#define L2 12.5f`). -/
noncomputable def L2 : ℝ := 12.5

/-- Shin segment length L3 [cm] (`#define L3 15.5f`). -/
noncomputable def L3 : ℝ := 15.5

/-- Per-leg hip-origin record (`LegOrigin_t` of `hexapod_kinematics.h`). -/
structure LegOrigin_t where
  x : ℝ
  y : ℝ
  invert_hip : Bool
  invert_knee : Bool

/-- The six hip origins (`leg_origins` of `hexapod_kinematics.c`). -/
noncomputable def leg_origins : Fin 6 → LegOrigin_t :=
  ![⟨6.8956, -7.7136, false, false⟩,
    ⟨-8.6608, -7.7136, true, true⟩,
    ⟨10.1174, 0.0645, false, false⟩,
    ⟨-11.8826, -0.0645, true, true⟩,
    ⟨6.8956, 7.8427, false, false⟩,
    ⟨-8.6608, 7.8427, true, true⟩]

/-- Reading `leg_origins[leg_number - 1]`.  The C array access is only
defined for `leg_number ∈ [1,6]`; an out-of-range index is an out-of-bounds
read (undefined behavior), modelled by `none`. -/
noncomputable def legOriginAt (leg : ℤ) : Option LegOrigin_t :=
  if h : 1 ≤ leg ∧ leg ≤ 6 then some (leg_origins ⟨(leg - 1).toNat, by omega⟩) else none

/-- Two-argument arctangent, the model of C `atan2f(y, x)`. -/
noncomputable def atan2 (y x : ℝ) : ℝ := Complex.arg ⟨x, y⟩

open Classical in
/-- Hip angle with the invert-hip wrap, lines 38-47 of
`hexapod_kinematics.c`: `q1 = atan2f(ly, lx)`, and for an inverted hip
`q1 > 0 ? q1 - π : q1 + π`. -/
noncomputable def hipAngle (o : LegOrigin_t) (lx ly : ℝ) : ℝ :=
  let a := atan2 ly lx
  if o.invert_hip then (if a > 0 then a - Real.pi else a + Real.pi) else a

/-- Radial reach `r = sqrtf(lx*lx + ly*ly) - L1` (line 52). -/
noncomputable def legR (lx ly : ℝ) : ℝ := Real.sqrt (lx * lx + ly * ly) - L1

/-- Squared straight-line distance `D2 = r*r + h*h` with `h = -z`
(lines 53-58). -/
noncomputable def legD2 (lx ly z : ℝ) : ℝ := legR lx ly * legR lx ly + -z * -z

/-- Straight-line distance `D = sqrtf(D2)` (line 59). -/
noncomputable def legD (lx ly z : ℝ) : ℝ := Real.sqrt (legD2 lx ly z)

/-- The raw law-of-cosines argument for gamma (line 75). -/
noncomputable def cos_gamma_raw (D2v : ℝ) : ℝ := (D2v - L2 * L2 - L3 * L3) / (2 * L2 * L3)

/-- The clamped gamma cosine, `fmaxf(-1, fminf(1, cos_gamma))` (line 76). -/
noncomputable def cos_gamma (D2v : ℝ) : ℝ := max (-1) (min 1 (cos_gamma_raw D2v))

/-- The beta cosine `(D2 + L2*L2 - L3*L3) / (2*L2*D)` (line 81).  In the C
source this expression is passed to `acosf` with no clamping. -/
noncomputable def cos_beta (D2v Dv : ℝ) : ℝ := (D2v + L2 * L2 - L3 * L3) / (2 * L2 * Dv)

/-- Knee angle `q2 = -(alpha - beta)` with `alpha = atan2f(h, r)` and
`beta = acosf(cos_beta)` (lines 80-82 of `hexapod_kinematics.c`). -/
noncomputable def ikQ2 (lx ly z : ℝ) : ℝ :=
  -(atan2 (-z) (legR lx ly) - Real.arccos (cos_beta (legD2 lx ly z) (legD lx ly z)))

open Classical in
/-- Ankle angle `q3` with `gamma = acosf(cos_gamma)`: `gamma - π` for an
inverted knee, `-(π - gamma)` otherwise (lines 77, 85-94). -/
noncomputable def ikQ3 (o : LegOrigin_t) (lx ly z : ℝ) : ℝ :=
  if o.invert_knee then Real.arccos (cos_gamma (legD2 lx ly z)) - Real.pi
  else -(Real.pi - Real.arccos (cos_gamma (legD2 lx ly z)))

open Classical in
/-- `computeLegIK` of `hexapod_kinematics.c`, modelled with explicit
state-passing for the three output pointers: the arguments `q1 q2 q3` are the
values stored at the output locations before the call, and the second
component of the result gives the values stored there after the call.
Control flow as in the source: the id guard (line 21) fails first, touching
nothing; `*q1` is assigned (line 38) before the reach check (line 64), so an
unreachable target fails with `q1` already overwritten; only a fully
successful call assigns `*q2` and `*q3`.  The `q1 == NULL` checks of line 21
are not modelled (Lean references are always valid). -/
noncomputable def computeLegIK (leg : ℤ) (x y z : ℝ) (q1 q2 q3 : ℝ) :
    Bool × ℝ × ℝ × ℝ :=
  match legOriginAt leg with
  | none => (false, q1, q2, q3)
  | some o =>
    if legD (x - o.x) (y - o.y) z > L2 + L3 ∨ legD (x - o.x) (y - o.y) z < |L2 - L3| then
      (false, hipAngle o (x - o.x) (y - o.y), q2, q3)
    else
      (true, hipAngle o (x - o.x) (y - o.y), ikQ2 (x - o.x) (y - o.y) z,
        ikQ3 o (x - o.x) (y - o.y) z)

open Classical in
/-- `debugLegIK` of `hexapod_kinematics.c` (lines 103-155).  The function has
no leg-number guard: its first action is the table read
`leg_origins[leg_number - 1]`, so for an out-of-range id the behavior is an
out-of-bounds read, modelled by `none`.  On the defined path it reproduces
the reach checks of lines 128-139 and then returns the result of the inner
`computeLegIK` call. -/
noncomputable def debugLegIK (leg : ℤ) (x y z : ℝ) : Option Bool :=
  (legOriginAt leg).map fun o =>
    let lx := x - o.x
    let ly := y - o.y
    let Dv := legD lx ly z
    if Dv > L2 + L3 then false
    else if Dv < |L2 - L3| then false
    else (computeLegIK leg x y z 0 0 0).1

/-- The origin record of a valid leg number. -/
noncomputable def legOrigin (leg : ℤ) (h1 : 1 ≤ leg) (h2 : leg ≤ 6) : LegOrigin_t :=
  leg_origins ⟨(leg - 1).toNat, by omega⟩

/-- The distance `D` of the solver for leg origin `o` and target `(x,y,z)`:
`hypot (hypot lxy - L1) (-z)` in the claim's notation. -/
noncomputable def legDist (o : LegOrigin_t) (x y z : ℝ) : ℝ :=
  legD (x - o.x) (y - o.y) z

/-! ## Wave gait engine, from `wave_gait.c`

Legs are indexed `0..5` here for leg numbers `1..6` of the C code.  Only the
lateral (`y`) bookkeeping in `leg_current_y` is stateful; the trajectory
arithmetic is exact rational arithmetic. -/

namespace Wave

/-- Base foot positions, forward/backward coordinate (`base_positions[i][1]`). -/
def base_y : Fin 6 → ℚ := ![-15, -15, 0, 0, 15, 15]

/-- Base foot positions, lateral coordinate (`base_positions[i][0]`). -/
def base_x : Fin 6 → ℚ := ![18, -18, 22, -22, 18, -18]

/-- Base foot height (`base_positions[i][2]`), -24 for every leg. -/
def base_z : Fin 6 → ℚ := ![-24, -24, -24, -24, -24, -24]

/-- `cubicInterpolation` of `wave_gait.c` (identical copies exist in the
bipedal and tripod engines). -/
def cubicInterpolation (t : ℚ) : ℚ :=
  if t ≤ 0 then 0 else if t ≥ 1 then 1 else t * t * (3 - 2 * t)

/-- `lerp` of `wave_gait.c`. -/
def lerp (start finish t : ℚ) : ℚ := start + (finish - start) * t

/-- Direction argument of the wave engine (`WaveDirection_t`). -/
inductive WaveDirection where
  | forward
  | backward
  | left
  | right
deriving DecidableEq

/-- One sub-phase of the wave cycle: a single-leg swing (`executeSwingPhase`)
or the all-legs stance shift (`executeStanceShift`). -/
inductive WaveEvent where
  | swing (leg : Fin 6)
  | stanceShift
deriving DecidableEq

/-- `wave_sequence` of `wave_gait.c` (legs `{1,2,3,4,5,6}`), 0-indexed. -/
def wave_sequence : List (Fin 6) := [0, 1, 2, 3, 4, 5]

/-- The sub-phase sequence of one `waveGaitCycle`: for each leg of
`wave_sequence`, `executeLegStep` runs `executeSwingPhase` for that leg
immediately followed by `executeStanceShift` for all legs. -/
def waveCycleEvents : List WaveEvent :=
  wave_sequence.foldr (fun l acc => WaveEvent.swing l :: WaveEvent.stanceShift :: acc) []

/-- Swing touchdown target `swing_end_y = base_y - step_length`
(line 176 of `wave_gait.c`).  The `direction` argument of
`executeSwingPhase` does not occur in this computation. -/
def swingEnd (S : ℚ) (l : Fin 6) : ℚ := base_y l - S

/-- Effect of one sub-phase on `leg_current_y`: a swing stores
`swing_end_y` for the swinging leg (line 195), a stance shift stores
`stance_start_y + step_length/6` for every leg (lines 236, 260, 272). -/
def applyEvent (S : ℚ) (y : Fin 6 → ℚ) : WaveEvent → (Fin 6 → ℚ)
  | WaveEvent.swing l => Function.update y l (swingEnd S l)
  | WaveEvent.stanceShift => fun i => y i + S / 6

/-- Run a list of sub-phases from a given `leg_current_y` state. -/
def runEvents (S : ℚ) (y : Fin 6 → ℚ) (es : List WaveEvent) : Fin 6 → ℚ :=
  es.foldl (applyEvent S) y

/-- `leg_current_y` after one full `waveGaitCycle` starting from the lazily
initialized base positions (`initializeLegPositions`). -/
def waveCycleY (S : ℚ) : Fin 6 → ℚ := runEvents S base_y waveCycleEvents

/-- Cumulative stance displacement a single (grounded) leg receives over a
list of sub-phases: each `executeStanceShift` moves every leg by exactly
`step_length / 6`, a swing moves no grounded leg.  Observer definition over
the sub-phase trace. -/
def stanceDisp (S : ℚ) (es : List WaveEvent) : ℚ :=
  es.foldl (fun acc e => match e with
    | WaveEvent.stanceShift => acc + S / 6
    | WaveEvent.swing _ => acc) 0

/-- Commanded `y` for leg `i` during a sample of the swing of leg `l` at
normalized time `t` (lines 164-214 of `wave_gait.c`): the swing leg
interpolates from its tracked offset to `swing_end_y`; every other leg is
commanded to its unchanged tracked offset. -/
def swingSampleY (S : ℚ) (y : Fin 6 → ℚ) (l : Fin 6) (t : ℚ) (i : Fin 6) : ℚ :=
  if i = l then lerp (y l) (swingEnd S l) (cubicInterpolation t) else y i

/-- The swing target of the wave engine as a function of the direction
argument: `executeSwingPhase` computes `current_x = base_x` and
`swing_end_y = base_y - step_length` without inspecting `direction`. -/
def swingTarget (_d : WaveDirection) (i : Fin 6) (S : ℚ) : ℚ × ℚ :=
  (base_x i, base_y i - S)

end Wave

/-! ## Bipedal gait engine, from `bipedal_gait.c` -/

namespace Bipedal

/-- Base positions (`base_positions` of `bipedal_gait.c`, identical table). -/
def base_y : Fin 6 → ℚ := ![-15, -15, 0, 0, 15, 15]

/-- Lateral base coordinates. -/
def base_x : Fin 6 → ℚ := ![18, -18, 22, -22, 18, -18]

/-- Direction argument of the bipedal engine (`BipedalDirection_t`). -/
inductive BipedalDirection where
  | forward
  | backward
  | left
  | right
deriving DecidableEq

/-- `leg_pairs` of `bipedal_gait.c`: `{1,4}, {2,5}, {3,6}`, 0-indexed. -/
def leg_pairs : Fin 3 → Fin 6 × Fin 6 := ![(0, 3), (1, 4), (2, 5)]

/-- One sub-phase of the bipedal cycle: a pair swing (`executeSwingPhase`)
or the all-legs stance shift (`executeStanceShift`). -/
inductive BipedalEvent where
  | swingPair (p : Fin 3)
  | stanceShift
deriving DecidableEq

/-- The sub-phase sequence of one `bipedalGaitCycle`: for `pair = 0,1,2`,
`executePairStep` runs the pair swing immediately followed by the all-legs
stance shift. -/
def bipedalCycleEvents : List BipedalEvent :=
  [BipedalEvent.swingPair 0, BipedalEvent.stanceShift,
   BipedalEvent.swingPair 1, BipedalEvent.stanceShift,
   BipedalEvent.swingPair 2, BipedalEvent.stanceShift]

/-- Swing touchdown target `swing_end_y = base_y - step_length` (line 187 of
`bipedal_gait.c`); the direction argument does not occur in it. -/
def swingEnd (S : ℚ) (l : Fin 6) : ℚ := base_y l - S

/-- Effect of one sub-phase on `leg_current_y`: a pair swing stores
`swing_end_y` for both legs of the pair (line 206), a stance shift stores
`stance_start_y + step_length/3` for every leg (lines 252, 276, 288). -/
def applyEvent (S : ℚ) (y : Fin 6 → ℚ) : BipedalEvent → (Fin 6 → ℚ)
  | BipedalEvent.swingPair p =>
      Function.update (Function.update y (leg_pairs p).1 (swingEnd S (leg_pairs p).1))
        (leg_pairs p).2 (swingEnd S (leg_pairs p).2)
  | BipedalEvent.stanceShift => fun i => y i + S / 3

/-- `leg_current_y` after one full `bipedalGaitCycle` starting from the
lazily initialized base positions. -/
def bipedalCycleY (S : ℚ) : Fin 6 → ℚ :=
  bipedalCycleEvents.foldl (applyEvent S) base_y

/-- Cumulative stance displacement per leg over a list of sub-phases (each
stance shift moves every leg by `step_length / 3`). -/
def stanceDisp (S : ℚ) (es : List BipedalEvent) : ℚ :=
  es.foldl (fun acc e => match e with
    | BipedalEvent.stanceShift => acc + S / 3
    | BipedalEvent.swingPair _ => acc) 0

/-- The swing target of the bipedal engine as a function of the direction
argument: `executeSwingPhase` computes `current_x = base_x` and
`swing_end_y = base_y - step_length` without inspecting `direction`. -/
def swingTarget (_d : BipedalDirection) (i : Fin 6) (S : ℚ) : ℚ × ℚ :=
  (base_x i, base_y i - S)

end Bipedal

/-! ## Tripod gait engine, from `tripod_gait.c` -/

namespace Tripod

/-- Base positions (`base_positions` of `tripod_gait.c`, identical table). -/
def base_y : Fin 6 → ℚ := ![-15, -15, 0, 0, 15, 15]

/-- Lateral base coordinates. -/
def base_x : Fin 6 → ℚ := ![18, -18, 22, -22, 18, -18]

/-- Base foot height. -/
def base_z : Fin 6 → ℚ := ![-24, -24, -24, -24, -24, -24]

/-- Direction argument of the tripod engine (`TripodDirection_t`). -/
inductive TripodDirection where
  | forward
  | backward
  | left
  | right
  | turn_left
  | turn_right
deriving DecidableEq

/-- `calculateTargetPosition` of `tripod_gait.c` (lines 62-114): the swing
target starts at the base position and is modified along one axis according
to the direction; the turn directions modify only front legs (1,2 — indices
0,1) and rear legs (5,6 — indices 4,5), with opposite signs. -/
def calculateTargetPosition (d : TripodDirection) (i : Fin 6) (S : ℚ) : ℚ × ℚ × ℚ :=
  match d with
  | TripodDirection.forward => (base_x i, base_y i - S, base_z i)
  | TripodDirection.backward => (base_x i, base_y i + S, base_z i)
  | TripodDirection.left => (base_x i + S, base_y i, base_z i)
  | TripodDirection.right => (base_x i - S, base_y i, base_z i)
  | TripodDirection.turn_left =>
      if i.val = 0 ∨ i.val = 1 then (base_x i + S, base_y i, base_z i)
      else if i.val = 4 ∨ i.val = 5 then (base_x i - S, base_y i, base_z i)
      else (base_x i, base_y i, base_z i)
  | TripodDirection.turn_right =>
      if i.val = 0 ∨ i.val = 1 then (base_x i - S, base_y i, base_z i)
      else if i.val = 4 ∨ i.val = 5 then (base_x i + S, base_y i, base_z i)
      else (base_x i, base_y i, base_z i)

/-- Stance start position of `executeStancePhase` (lines 188-230): the leg
starts displaced opposite to the motion direction and slides to base. -/
def stanceStart (d : TripodDirection) (i : Fin 6) (S : ℚ) : ℚ × ℚ :=
  match d with
  | TripodDirection.forward => (base_x i, base_y i + S)
  | TripodDirection.backward => (base_x i, base_y i - S)
  | TripodDirection.left => (base_x i - S, base_y i)
  | TripodDirection.right => (base_x i + S, base_y i)
  | TripodDirection.turn_left =>
      if i.val = 0 ∨ i.val = 1 then (base_x i - S, base_y i)
      else if i.val = 4 ∨ i.val = 5 then (base_x i + S, base_y i)
      else (base_x i, base_y i)
  | TripodDirection.turn_right =>
      if i.val = 0 ∨ i.val = 1 then (base_x i + S, base_y i)
      else if i.val = 4 ∨ i.val = 5 then (base_x i - S, base_y i)
      else (base_x i, base_y i)

/-- Net displacement of a leg over one full `executeStancePhase`: the leg
moves from `stanceStart` to the base position. -/
def stanceNet (d : TripodDirection) (i : Fin 6) (S : ℚ) : ℚ × ℚ :=
  (base_x i - (stanceStart d i S).1, base_y i - (stanceStart d i S).2)

/-- A leg phase executed by `tripodGaitCycle`, identified by C leg number. -/
inductive TPhase where
  | stance (leg : ℕ)
  | swing (leg : ℕ)
deriving DecidableEq

/-- The phase sequence actually executed by `tripodGaitCycle`
(lines 272-304 of `tripod_gait.c`): when `pca1` is available the cycle runs
`executeStancePhase(pca1, 3, direction)` and then
`executeSwingPhase(pca1, 3, direction)`; no other leg is commanded
(the source comments this as an implementation restricted to the available
legs). -/
def tripodGaitCycle (pca1 : Bool) (_d : TripodDirection) : List TPhase :=
  (if pca1 then [TPhase.stance 3] else []) ++ (if pca1 then [TPhase.swing 3] else [])

end Tripod

/-! ## Actuation adapters and PWM driver, from `wave_gait.c`,
`bipedal_gait.c`, `test_positions.c` and `pca9685.c` -/

namespace Servo

open Classical in
/-- The lower servo limit `if (a < 0) a = 0`. -/
noncomputable def clampLow (a : ℝ) : ℝ := if a < 0 then 0 else a

open Classical in
/-- The upper servo limit `if (a > 180) a = 180`. -/
noncomputable def clampHigh (a : ℝ) : ℝ := if a > 180 then 180 else a

/-- The two sequential limits applied to every servo angle, in source
order. -/
noncomputable def clampServo (a : ℝ) : ℝ := clampHigh (clampLow a)

/-- Radians to degrees, `q * 180.0f / M_PI`. -/
noncomputable def radToDeg (q : ℝ) : ℝ := q * 180 / Real.pi

/-- Channel/offset mapping record (`LegMapping_t`, duplicated identically in
`wave_gait.c` and `bipedal_gait.c`). -/
structure LegMapping_t where
  base_channel : ℕ
  hip_offset_deg : ℝ
  is_left_side : Bool

/-- `leg_mapping` table (identical in `wave_gait.c` and `bipedal_gait.c`). -/
noncomputable def leg_mapping : Fin 6 → LegMapping_t :=
  ![⟨0, 37.5, true⟩, ⟨0, -37.5, false⟩, ⟨3, 0, true⟩,
    ⟨3, 0, false⟩, ⟨6, -37.5, true⟩, ⟨6, 37.5, false⟩]

/-- The three servo angles computed by `setLegJointsWithOffset` of
`wave_gait.c` (lines 96-146): degree conversion, hip offset, right-side
knee/ankle mirroring, neutral offset 90, then the limits. -/
noncomputable def waveServoAngles (i : Fin 6) (q1 q2 q3 : ℝ) : ℝ × ℝ × ℝ :=
  let m := leg_mapping i
  let hip_deg := radToDeg q1 + m.hip_offset_deg
  let knee_deg := if m.is_left_side then radToDeg q2 else -(radToDeg q2)
  let ankle_deg := if m.is_left_side then radToDeg q3 else -(radToDeg q3)
  (clampServo (90 + hip_deg), clampServo (90 + knee_deg), clampServo (90 + ankle_deg))

/-- The three servo angles computed by `setLegJointsWithOffset` of
`bipedal_gait.c` (lines 102-147): same as the wave version but with the
knee/ankle mirroring removed. -/
noncomputable def bipedalServoAngles (i : Fin 6) (q1 q2 q3 : ℝ) : ℝ × ℝ × ℝ :=
  let m := leg_mapping i
  let hip_deg := radToDeg q1 + m.hip_offset_deg
  (clampServo (90 + hip_deg), clampServo (90 + radToDeg q2), clampServo (90 + radToDeg q3))

/-- The three servo angles computed by `setLegJoints` of
`test_positions.c` (lines 9-61): no hip offset, neutral 90, then the
limits (only legs 1, 3, 5 reach this computation). -/
noncomputable def testServoAngles (q1 q2 q3 : ℝ) : ℝ × ℝ × ℝ :=
  (clampServo (90 + radToDeg q1), clampServo (90 + radToDeg q2), clampServo (90 + radToDeg q3))

/-- PCA9685 handle: the transport fields are abstracted to the `ready`
flag. -/
structure PCA9685_Handle_t where
  ready : Bool

/-- `PCA9685_SetServoAngle` of `pca9685.c` (lines 86-104), with the I2C
write abstracted: a successful call produces the pair (channel, angle
actually commanded), after the guard `handle == NULL || !handle->ready ||
channel > 15` and the 0..180 angle limits.  A null handle is `none`; the
transport itself (`PCA9685_SetPWM`) is assumed to succeed. -/
noncomputable def PCA9685_SetServoAngle (h : Option PCA9685_Handle_t) (channel : ℕ)
    (angle : ℝ) : Bool × Option (ℕ × ℝ) :=
  match h with
  | none => (false, none)
  | some hh =>
      if hh.ready = false ∨ channel > 15 then (false, none)
      else (true, some (channel, clampServo angle))

end Servo

/-! ## Helper lemmas shared by several results -/

theorem legOriginAt_eq (leg : ℤ) (h1 : 1 ≤ leg) (h2 : leg ≤ 6) :
    legOriginAt leg = some (legOrigin leg h1 h2) := by
  simp [legOriginAt, legOrigin, h1, h2]

theorem legD2_nonneg (lx ly z : ℝ) : 0 ≤ legD2 lx ly z := by
  unfold legD2
  nlinarith [mul_self_nonneg (legR lx ly), mul_self_nonneg z]

theorem legD_sq (lx ly z : ℝ) : legD lx ly z * legD lx ly z = legD2 lx ly z :=
  Real.mul_self_sqrt (legD2_nonneg lx ly z)

theorem abs_L2_sub_L3 : |L2 - L3| = 3 := by
  rw [L2, L3, show (12.5:ℝ) - 15.5 = -3 by norm_num, abs_neg,
    abs_of_nonneg (by norm_num : (0:ℝ) ≤ 3)]

/-- Unfolding of `computeLegIK` for a valid leg number. -/
theorem computeLegIK_valid (leg : ℤ) (x y z q1 q2 q3 : ℝ) (h1 : 1 ≤ leg) (h2 : leg ≤ 6) :
    computeLegIK leg x y z q1 q2 q3 =
      (if legD (x - (legOrigin leg h1 h2).x) (y - (legOrigin leg h1 h2).y) z > L2 + L3 ∨
          legD (x - (legOrigin leg h1 h2).x) (y - (legOrigin leg h1 h2).y) z < |L2 - L3| then
        (false, hipAngle (legOrigin leg h1 h2) (x - (legOrigin leg h1 h2).x)
          (y - (legOrigin leg h1 h2).y), q2, q3)
      else
        (true, hipAngle (legOrigin leg h1 h2) (x - (legOrigin leg h1 h2).x)
          (y - (legOrigin leg h1 h2).y),
          ikQ2 (x - (legOrigin leg h1 h2).x) (y - (legOrigin leg h1 h2).y) z,
          ikQ3 (legOrigin leg h1 h2) (x - (legOrigin leg h1 h2).x)
            (y - (legOrigin leg h1 h2).y) z)) := by
  rw [computeLegIK, legOriginAt_eq leg h1 h2]

/-- The success flag of the solver matches the inclusive reach test on the
straight-line distance. -/
theorem computeLegIK_success_iff (leg : ℤ) (x y z q1 q2 q3 : ℝ)
    (h1 : 1 ≤ leg) (h2 : leg ≤ 6) :
    (computeLegIK leg x y z q1 q2 q3).1 = true ↔
      |L2 - L3| ≤ legDist (legOrigin leg h1 h2) x y z ∧
        legDist (legOrigin leg h1 h2) x y z ≤ L2 + L3 := by
  rw [computeLegIK_valid leg x y z q1 q2 q3 h1 h2, legDist]
  split_ifs with h
  · simp only [Bool.false_eq_true, false_iff, not_and, not_le]
    rcases h with h | h
    · intro hmin
      linarith
    · intro hmin
      exact absurd h (not_lt.2 hmin)
  · push_neg at h
    simp only [true_iff]
    exact ⟨h.2, h.1⟩

/-- An out-of-range leg number fails before any computation, leaving the
output locations untouched. -/
theorem computeLegIK_invalid (leg : ℤ) (x y z q1 q2 q3 : ℝ) (h : leg < 1 ∨ 6 < leg) :
    computeLegIK leg x y z q1 q2 q3 = (false, q1, q2, q3) := by
  rw [computeLegIK, show legOriginAt leg = none by simp [legOriginAt]; omega]

/-- A failed call with a valid leg number has already overwritten the hip
output, while the knee and ankle outputs keep their prior values. -/
theorem computeLegIK_failure_state (leg : ℤ) (x y z q1 q2 q3 : ℝ)
    (h1 : 1 ≤ leg) (h2 : leg ≤ 6)
    (hf : (computeLegIK leg x y z q1 q2 q3).1 = false) :
    computeLegIK leg x y z q1 q2 q3 =
      (false,
        hipAngle (legOrigin leg h1 h2) (x - (legOrigin leg h1 h2).x)
          (y - (legOrigin leg h1 h2).y), q2, q3) := by
  rw [computeLegIK_valid leg x y z q1 q2 q3 h1 h2] at hf ⊢
  split_ifs at hf ⊢ with h
  rfl

/-- For leg 3's origin and target (40, 0, -24) the distance exceeds the
maximal reach `L2 + L3 = 28`. -/
theorem leg3_far : L2 + L3 < legD (40 - 10.1174) (0 - 0.0645) (-24) := by
  have h29 : (29:ℝ) ≤
      Real.sqrt ((40 - 10.1174) * (40 - 10.1174) + (0 - 0.0645) * (0 - 0.0645)) := by
    apply Real.le_sqrt_of_sq_le
    norm_num
  have hr : (23.5:ℝ) ≤ legR (40 - 10.1174) (0 - 0.0645) := by
    rw [legR, L1]; linarith
  rw [L2, L3, legD, legD2]
  apply Real.lt_sqrt_of_sq_lt
  nlinarith [hr]

theorem legOrigin_3 (h1 : 1 ≤ (3:ℤ)) (h2 : (3:ℤ) ≤ 6) :
    legOrigin 3 h1 h2 = ⟨10.1174, 0.0645, false, false⟩ := by
  simp [legOrigin, leg_origins]

/-- Evaluation of the solver at leg 3, target (40, 0, -24): the reach guard
fires, but the hip output has already been written with the raw `atan2`. -/
theorem computeLegIK_leg3_far (q1 q2 q3 : ℝ) :
    computeLegIK 3 40 0 (-24) q1 q2 q3 =
      (false, atan2 (0 - 0.0645) (40 - 10.1174), q2, q3) := by
  rw [computeLegIK_valid 3 40 0 (-24) q1 q2 q3 (by norm_num) (by norm_num),
    legOrigin_3, if_pos (Or.inl leg3_far)]
  simp [hipAngle]

/-- `atan2` of a nonzero ordinate is nonzero. -/
theorem atan2_ne_zero_of_snd_ne_zero (x y : ℝ) (hy : y ≠ 0) : atan2 y x ≠ 0 := by
  rw [atan2]
  intro h
  rw [Complex.arg_eq_zero_iff] at h
  exact hy h.2

theorem cos_gamma_mem (D2v : ℝ) : -1 ≤ cos_gamma D2v ∧ cos_gamma D2v ≤ 1 :=
  ⟨le_max_left _ _, max_le (by norm_num) (min_le_left _ _)⟩

/-- Within the reachable annulus the (unclamped) beta cosine stays in
[-1, 1] in exact arithmetic. -/
theorem cos_beta_mem (lx ly z : ℝ) (hmin : |L2 - L3| ≤ legD lx ly z)
    (hmax : legD lx ly z ≤ L2 + L3) :
    -1 ≤ cos_beta (legD2 lx ly z) (legD lx ly z) ∧
      cos_beta (legD2 lx ly z) (legD lx ly z) ≤ 1 := by
  have h3 : (3:ℝ) ≤ legD lx ly z := by rw [← abs_L2_sub_L3]; exact hmin
  have h28 : legD lx ly z ≤ 28 := by rw [L2, L3] at hmax; linarith
  have hD2 : legD2 lx ly z = legD lx ly z * legD lx ly z := (legD_sq lx ly z).symm
  have hpos : 0 < 2 * L2 * legD lx ly z := by rw [L2]; nlinarith
  rw [cos_beta, hD2]
  constructor
  · rw [le_div_iff₀ hpos, L2, L3]
    nlinarith
  · rw [div_le_one hpos, L2, L3]
    nlinarith

/-- At height -100 cm the beta cosine exceeds 1 for any lateral offsets. -/
theorem cos_beta_far_gt_one (lx ly : ℝ) :
    1 < cos_beta (legD2 lx ly (-100)) (legD lx ly (-100)) := by
  have h100 : (100:ℝ) ≤ legD lx ly (-100) := by
    rw [legD, legD2]
    apply Real.le_sqrt_of_sq_le
    nlinarith [mul_self_nonneg (legR lx ly)]
  have hD2 : legD2 lx ly (-100) = legD lx ly (-100) * legD lx ly (-100) :=
    (legD_sq lx ly (-100)).symm
  have hpos : 0 < 2 * L2 * legD lx ly (-100) := by rw [L2]; nlinarith
  rw [cos_beta, hD2, lt_div_iff₀ hpos, L2, L3]
  nlinarith

/-- `legD 5.5 0 (-10) = 10`: a concrete in-annulus distance. -/
theorem legD_witness_value : legD 5.5 0 (-10) = 10 := by
  have hr : legR 5.5 0 = 0 := by
    rw [legR, L1, show (5.5:ℝ) * 5.5 + 0 * 0 = 5.5 * 5.5 by norm_num,
      Real.sqrt_mul_self (by norm_num : (0:ℝ) ≤ 5.5)]
    norm_num
  rw [legD, legD2, hr, show (0:ℝ) * 0 + -(-10) * -(-10) = 10 * 10 by norm_num,
    Real.sqrt_mul_self (by norm_num : (0:ℝ) ≤ 10)]

theorem clampServo_mem (a : ℝ) : 0 ≤ Servo.clampServo a ∧ Servo.clampServo a ≤ 180 := by
  unfold Servo.clampServo Servo.clampHigh Servo.clampLow
  split_ifs <;> constructor <;> linarith

theorem setServoAngle_unready (hh : Servo.PCA9685_Handle_t) (ch : ℕ) (a : ℝ)
    (h : hh.ready = false) :
    Servo.PCA9685_SetServoAngle (some hh) ch a = (false, none) := by
  rw [Servo.PCA9685_SetServoAngle, if_pos (Or.inl h)]

theorem setServoAngle_badchannel (hh : Servo.PCA9685_Handle_t) (ch : ℕ) (a : ℝ)
    (h : ch > 15) :
    Servo.PCA9685_SetServoAngle (some hh) ch a = (false, none) := by
  rw [Servo.PCA9685_SetServoAngle, if_pos (Or.inr h)]

theorem setServoAngle_write_mem (hh : Servo.PCA9685_Handle_t) (ch : ℕ) (a : ℝ)
    (w : ℕ × ℝ) (h : (Servo.PCA9685_SetServoAngle (some hh) ch a).2 = some w) :
    0 ≤ w.2 ∧ w.2 ≤ 180 := by
  rw [Servo.PCA9685_SetServoAngle] at h
  split_ifs at h
  simp only [Option.some.injEq] at h
  rw [← h]
  exact clampServo_mem a

/-- Closed form of `leg_current_y` after one wave cycle: leg `i` (0-indexed)
ends `i * step/6` short of its base coordinate. -/
theorem waveCycleY_apply (S : ℚ) (i : Fin 6) :
    Wave.waveCycleY S i = Wave.base_y i - (i.val : ℚ) * S / 6 := by
  fin_cases i <;>
    simp [Wave.waveCycleY, Wave.runEvents, Wave.waveCycleEvents, Wave.wave_sequence,
      Wave.applyEvent, Wave.swingEnd, Wave.base_y, Function.update] <;> ring

/-- Closed form of `leg_current_y` after one bipedal cycle: leg `i` of pair
`i % 3` ends `(i % 3) * step/3` short of its base coordinate. -/
theorem bipedalCycleY_apply (S : ℚ) (i : Fin 6) :
    Bipedal.bipedalCycleY S i = Bipedal.base_y i - ((i.val % 3 : ℕ) : ℚ) * S / 3 := by
  fin_cases i <;>
    simp [Bipedal.bipedalCycleY, Bipedal.bipedalCycleEvents, Bipedal.applyEvent,
      Bipedal.swingEnd, Bipedal.leg_pairs, Bipedal.base_y, Function.update] <;> ring

/-! ## C1 — closure of the wave/bipedal cycle -/

/-- C1 counterexample.  With the default wave and bipedal step length 4 cm,
starting from the lazily initialized base positions, one full cycle leaves
leg 2 (index 1) 2/3 cm (wave) resp. 4/3 cm (bipedal) short of its base
lateral coordinate — far outside any numerical tolerance (1/100 cm shown),
so the claimed closure property fails. -/
theorem wave_bipedal_cycle_not_closed :
    Wave.waveCycleY 4 1 - Wave.base_y 1 = -2/3 ∧
    ¬ |Wave.waveCycleY 4 1 - Wave.base_y 1| ≤ 1/100 ∧
    Bipedal.bipedalCycleY 4 1 - Bipedal.base_y 1 = -4/3 ∧
    ¬ |Bipedal.bipedalCycleY 4 1 - Bipedal.base_y 1| ≤ 1/100 := by
  rw [waveCycleY_apply, bipedalCycleY_apply]
  norm_num [Wave.base_y, Bipedal.base_y, abs_le]

/-- C1 (amended).  After one full cycle of `waveGaitCycle` resp.
`bipedalGaitCycle` from the lazily initialized base positions, leg `i`
(0-indexed) does not return to its base lateral coordinate: it ends at
`base_y - g * stepLength / groupCount`, where `g` is the 0-based position of
the leg's group in the swing order (wave: `g = i`; bipedal: `g = i % 3`).
Only the first-swinging group returns exactly to base. -/
theorem gait_cycle_final_offsets :
    (∀ (S : ℚ) (i : Fin 6),
      Wave.waveCycleY S i = Wave.base_y i - (i.val : ℚ) * S / 6) ∧
    (∀ (S : ℚ) (i : Fin 6),
      Bipedal.bipedalCycleY S i = Bipedal.base_y i - ((i.val % 3 : ℕ) : ℚ) * S / 3) :=
  ⟨waveCycleY_apply, bipedalCycleY_apply⟩

/-! ## C3 — tripod group antiphase -/

/-- C3.  The phase list actually executed by `tripodGaitCycle` with the left
PWM controller available: a stance of leg 3 followed by a swing of leg 3,
sequentially.  No sample commands the group A = {1,4,5} / group B = {2,3,6}
antiphase partition of the six legs — only leg 3 is ever commanded. -/
theorem tripodGaitCycle_commands_only_leg3 :
    Tripod.tripodGaitCycle true Tripod.TripodDirection.forward =
      [Tripod.TPhase.stance 3, Tripod.TPhase.swing 3] ∧
    (Tripod.tripodGaitCycle true Tripod.TripodDirection.forward).all
      (fun p => match p with
        | Tripod.TPhase.stance l => l = 3
        | Tripod.TPhase.swing l => l = 3) = true := by
  constructor <;> rfl

/-! ## C7 — stance displacement per group-step -/

/-- C7 counterexample.  With the default tripod step length 6 cm, the net
displacement of a leg over one `executeStancePhase` (forward) has magnitude
6 cm — the full step length — not `stepLength / 2 = 3` as claimed for the
tripod engine. -/
theorem tripod_stance_full_step_not_half :
    (Tripod.stanceNet Tripod.TripodDirection.forward 2 6).2 = -6 ∧
    ¬ |(Tripod.stanceNet Tripod.TripodDirection.forward 2 6).2| = 6/2 := by
  norm_num [Tripod.stanceNet, Tripod.stanceStart, Tripod.base_x, Tripod.base_y]

/-- C7 (amended).  Per group-step, `executeStanceShift` moves every leg by
`stepLength/6` (wave) resp. `stepLength/3` (bipedal), and over one full
cycle the cumulative stance displacement per leg is exactly one
`stepLength`.  The tripod `executeStancePhase`, however, displaces the leg
by the full `stepLength` in its single stance phase (from the offset start
position back to base), each leg stancing once per cycle — so its cumulative
stance displacement per cycle is also `stepLength`, but the per-step
fraction is `stepLength`, not `stepLength/2`. -/
theorem stance_displacement_per_step :
    (∀ (S : ℚ) (y : Fin 6 → ℚ) (i : Fin 6),
      Wave.applyEvent S y Wave.WaveEvent.stanceShift i - y i = S / 6) ∧
    (∀ (S : ℚ) (y : Fin 6 → ℚ) (i : Fin 6),
      Bipedal.applyEvent S y Bipedal.BipedalEvent.stanceShift i - y i = S / 3) ∧
    (∀ S : ℚ, Wave.stanceDisp S Wave.waveCycleEvents = S) ∧
    (∀ S : ℚ, Bipedal.stanceDisp S Bipedal.bipedalCycleEvents = S) ∧
    (∀ (S : ℚ) (i : Fin 6),
      Tripod.stanceNet Tripod.TripodDirection.forward i S = (0, -S)) := by
  refine ⟨fun S y i => by simp [Wave.applyEvent],
    fun S y i => by simp [Bipedal.applyEvent],
    fun S => by simp [Wave.stanceDisp, Wave.waveCycleEvents, Wave.wave_sequence]; ring,
    fun S => by simp [Bipedal.stanceDisp, Bipedal.bipedalCycleEvents]; ring,
    fun S i => ?_⟩
  fin_cases i <;> simp [Tripod.stanceNet, Tripod.stanceStart, Tripod.base_x, Tripod.base_y]

/-! ## C8 — swing targets by direction -/

/-- C8 counterexample.  The wave engine ignores its direction argument: with
direction LEFT and step 4, the swing target of leg 1 is still
`(base_x, base_y - 4) = (18, -19)` instead of the claimed lateral move
`(base_x + 4, base_y) = (22, -15)`; the bipedal engine behaves the same
way. -/
theorem wave_swing_ignores_direction :
    Wave.swingTarget Wave.WaveDirection.left 0 4 = (18, -19) ∧
    Wave.swingTarget Wave.WaveDirection.left 0 4 ≠ (Wave.base_x 0 + 4, Wave.base_y 0) ∧
    Bipedal.swingTarget Bipedal.BipedalDirection.left 0 4 ≠
      (Bipedal.base_x 0 + 4, Bipedal.base_y 0) := by
  refine ⟨?_, ?_, ?_⟩ <;>
    norm_num [Wave.swingTarget, Wave.base_x, Wave.base_y, Bipedal.swingTarget,
      Bipedal.base_x, Bipedal.base_y, Prod.ext_iff]

/-- C8 (amended).  Only the tripod engine implements direction handling:
`calculateTargetPosition` modifies the base position along the forward axis
(`y`) by `∓stepLength` for forward/backward, along the lateral axis (`x`) by
`±stepLength` for left/right, and for the turn directions applies
opposite-signed lateral offsets to the front legs (indices 0,1) versus the
rear legs (indices 4,5), leaving the middle legs (indices 2,3) at zero
offset.  The wave and bipedal engines ignore their direction argument: the
swing target is always `(base_x, base_y - stepLength)`. -/
theorem swing_targets_by_direction :
    (∀ (i : Fin 6) (S : ℚ),
      Tripod.calculateTargetPosition Tripod.TripodDirection.forward i S =
        (Tripod.base_x i, Tripod.base_y i - S, Tripod.base_z i) ∧
      Tripod.calculateTargetPosition Tripod.TripodDirection.backward i S =
        (Tripod.base_x i, Tripod.base_y i + S, Tripod.base_z i) ∧
      Tripod.calculateTargetPosition Tripod.TripodDirection.left i S =
        (Tripod.base_x i + S, Tripod.base_y i, Tripod.base_z i) ∧
      Tripod.calculateTargetPosition Tripod.TripodDirection.right i S =
        (Tripod.base_x i - S, Tripod.base_y i, Tripod.base_z i) ∧
      Tripod.calculateTargetPosition Tripod.TripodDirection.turn_left i S =
        (if i.val ≤ 1 then (Tripod.base_x i + S, Tripod.base_y i, Tripod.base_z i)
         else if 4 ≤ i.val then (Tripod.base_x i - S, Tripod.base_y i, Tripod.base_z i)
         else (Tripod.base_x i, Tripod.base_y i, Tripod.base_z i)) ∧
      Tripod.calculateTargetPosition Tripod.TripodDirection.turn_right i S =
        (if i.val ≤ 1 then (Tripod.base_x i - S, Tripod.base_y i, Tripod.base_z i)
         else if 4 ≤ i.val then (Tripod.base_x i + S, Tripod.base_y i, Tripod.base_z i)
         else (Tripod.base_x i, Tripod.base_y i, Tripod.base_z i))) ∧
    (∀ (d : Wave.WaveDirection) (i : Fin 6) (S : ℚ),
      Wave.swingTarget d i S = (Wave.base_x i, Wave.base_y i - S)) ∧
    (∀ (d : Bipedal.BipedalDirection) (i : Fin 6) (S : ℚ),
      Bipedal.swingTarget d i S = (Bipedal.base_x i, Bipedal.base_y i - S)) := by
  refine ⟨fun i S => ?_, fun d i S => rfl, fun d i S => rfl⟩
  fin_cases i <;> simp [Tripod.calculateTargetPosition]

/-! ## C9 — wave swing order -/

/-- C9.  One `waveGaitCycle` executes exactly the sub-phase sequence
swing(1), shift, swing(2), shift, ..., swing(6), shift (legs written here
0-indexed, so `swing l` is leg number `l+1`): the legs enter SWING in order
[1,2,3,4,5,6], each swing is immediately followed by a stance-shift
sub-phase moving all six legs by `stepLength/6`, and during a swing sample
every non-swinging leg is commanded to its unchanged tracked offset, so legs
swing strictly one at a time. -/
theorem wave_cycle_swing_order :
    Wave.waveCycleEvents =
      [Wave.WaveEvent.swing 0, Wave.WaveEvent.stanceShift,
       Wave.WaveEvent.swing 1, Wave.WaveEvent.stanceShift,
       Wave.WaveEvent.swing 2, Wave.WaveEvent.stanceShift,
       Wave.WaveEvent.swing 3, Wave.WaveEvent.stanceShift,
       Wave.WaveEvent.swing 4, Wave.WaveEvent.stanceShift,
       Wave.WaveEvent.swing 5, Wave.WaveEvent.stanceShift] ∧
    Wave.waveCycleEvents.filterMap
      (fun e => match e with
        | Wave.WaveEvent.swing l => some (l.val + 1)
        | Wave.WaveEvent.stanceShift => none) = [1, 2, 3, 4, 5, 6] ∧
    (∀ (S : ℚ) (y : Fin 6 → ℚ) (l t : _) (i : Fin 6), i ≠ l →
      Wave.swingSampleY S y l t i = y i) ∧
    (∀ (S : ℚ) (y : Fin 6 → ℚ) (i : Fin 6),
      Wave.applyEvent S y Wave.WaveEvent.stanceShift i = y i + S / 6) := by
  refine ⟨rfl, rfl, fun S y l t i h => ?_, fun S y i => rfl⟩
  simp [Wave.swingSampleY, h]

/-- C9 witness: the hold property of the swing sample at a concrete input —
during the swing of leg 1 (index 0), leg 2 (index 1) is commanded to its
tracked offset. -/
theorem wave_cycle_swing_order_witness :
    Wave.swingSampleY 4 Wave.base_y 0 (1/2) 1 = Wave.base_y 1 :=
  wave_cycle_swing_order.2.2.1 4 Wave.base_y 0 (1/2) 1 (by decide)

/-! ## C2 — reachability of the IK solver -/

/-- C2.  For every valid leg id and target, `computeLegIK` succeeds exactly
when the straight-line distance `D = hypot (hypot local_x local_y - L1) (-z)`
satisfies `|L2 - L3| ≤ D ≤ L2 + L3`, both boundaries inclusive; in
particular for leg 3 the target (40, 0, -24) fails. -/
theorem computeLegIK_reachability :
    (∀ (leg : ℤ) (x y z q1 q2 q3 : ℝ) (h1 : 1 ≤ leg) (h2 : leg ≤ 6),
      ((computeLegIK leg x y z q1 q2 q3).1 = true ↔
        |L2 - L3| ≤ legDist (legOrigin leg h1 h2) x y z ∧
          legDist (legOrigin leg h1 h2) x y z ≤ L2 + L3)) ∧
    (computeLegIK 3 40 0 (-24) 0 0 0).1 = false :=
  ⟨computeLegIK_success_iff, by rw [computeLegIK_leg3_far]⟩

/-- C2 witness: the reachability equivalence instantiated at leg 1 with its
base target (18, -15, -24). -/
theorem computeLegIK_reachability_witness :
    (computeLegIK 1 18 (-15) (-24) 0 0 0).1 = true ↔
      |L2 - L3| ≤ legDist (legOrigin 1 (by norm_num) (by norm_num)) 18 (-15) (-24) ∧
        legDist (legOrigin 1 (by norm_num) (by norm_num)) 18 (-15) (-24) ≤ L2 + L3 :=
  computeLegIK_reachability.1 1 18 (-15) (-24) 0 0 0 (by norm_num) (by norm_num)

/-! ## C4 — outputs of a failed IK call -/

/-- C4 counterexample.  The call `computeLegIK 3 40 0 (-24)` with all three
output locations holding 0 fails with the Unreachable signal, yet the hip
output location has been overwritten with the (nonzero) raw hip angle: the
source assigns `*q1` (line 38) before the reach check (line 64), so a failed
call does produce a partial result. -/
theorem computeLegIK_unreachable_writes_q1 :
    (computeLegIK 3 40 0 (-24) 0 0 0).1 = false ∧
    (computeLegIK 3 40 0 (-24) 0 0 0).2.1 ≠ 0 := by
  rw [computeLegIK_leg3_far]
  exact ⟨rfl, atan2_ne_zero_of_snd_ne_zero _ _ (by norm_num)⟩

/-- C4 (amended).  A call failing on the leg-id guard modifies none of the
three output locations; a call with a valid leg id failing on the reach
check leaves `q2` and `q3` unmodified but has already overwritten `q1` with
the hip angle. -/
theorem computeLegIK_failure_outputs :
    (∀ (leg : ℤ) (x y z q1 q2 q3 : ℝ), leg < 1 ∨ 6 < leg →
      computeLegIK leg x y z q1 q2 q3 = (false, q1, q2, q3)) ∧
    (∀ (leg : ℤ) (x y z q1 q2 q3 : ℝ) (h1 : 1 ≤ leg) (h2 : leg ≤ 6),
      (computeLegIK leg x y z q1 q2 q3).1 = false →
      computeLegIK leg x y z q1 q2 q3 =
        (false, hipAngle (legOrigin leg h1 h2) (x - (legOrigin leg h1 h2).x)
          (y - (legOrigin leg h1 h2).y), q2, q3)) :=
  ⟨computeLegIK_invalid, computeLegIK_failure_state⟩

/-- C4 witness: the failure-state description instantiated at leg 0 (invalid
id) and at leg 3 with the unreachable target (40, 0, -24). -/
theorem computeLegIK_failure_outputs_witness :
    computeLegIK 0 1 2 3 4 5 6 = (false, 4, 5, 6) ∧
    computeLegIK 3 40 0 (-24) 0 0 0 =
      (false, hipAngle (legOrigin 3 (by norm_num) (by norm_num))
        (40 - (legOrigin 3 (by norm_num) (by norm_num)).x)
        (0 - (legOrigin 3 (by norm_num) (by norm_num)).y), 0, 0) :=
  ⟨computeLegIK_failure_outputs.1 0 1 2 3 4 5 6 (by norm_num),
   computeLegIK_failure_outputs.2 3 40 0 (-24) 0 0 0 (by norm_num) (by norm_num)
     (by rw [computeLegIK_leg3_far])⟩

/-! ## C5 — acos domain safety -/

/-- C5 counterexample.  The expression the source passes to `acosf` for beta
(line 81) is not clamped: evaluated at leg 1's local coordinates for the
target (18, -15, -100) it exceeds 1, which a clamped-to-[-1,1] expression
never does.  (At such out-of-annulus inputs the reach guard prevents the
`acosf` call; the clamp claimed for every acos argument exists only for the
gamma cosine, line 76.) -/
theorem cos_beta_argument_not_clamped :
    1 < cos_beta (legD2 (18 - 6.8956) (-15 - -7.7136) (-100))
        (legD (18 - 6.8956) (-15 - -7.7136) (-100)) ∧
    ¬ (cos_beta (legD2 (18 - 6.8956) (-15 - -7.7136) (-100))
        (legD (18 - 6.8956) (-15 - -7.7136) (-100)) ≤ 1) := by
  refine ⟨cos_beta_far_gt_one _ _, not_le.2 (cos_beta_far_gt_one _ _)⟩

/-- C5 (amended).  The gamma cosine is clamped to [-1, 1] by construction;
the beta cosine is passed to `acos` unclamped, but for every target inside
the reachable annulus (`|L2-L3| ≤ D ≤ L2+L3`) it lies in [-1, 1] in exact
real arithmetic, so on the in-range path the solver never evaluates `acos`
outside its domain.  (The float-level overshoot the clamp is meant to
absorb is outside this exact-arithmetic model.) -/
theorem acos_arguments_in_domain :
    (∀ D2v : ℝ, -1 ≤ cos_gamma D2v ∧ cos_gamma D2v ≤ 1) ∧
    (∀ lx ly z : ℝ, |L2 - L3| ≤ legD lx ly z → legD lx ly z ≤ L2 + L3 →
      -1 ≤ cos_beta (legD2 lx ly z) (legD lx ly z) ∧
        cos_beta (legD2 lx ly z) (legD lx ly z) ≤ 1) :=
  ⟨cos_gamma_mem, cos_beta_mem⟩

/-- C5 witness: the in-annulus bound instantiated at local coordinates
(5.5, 0) and height -10, where `D = 10` lies inside [3, 28]. -/
theorem acos_arguments_in_domain_witness :
    -1 ≤ cos_beta (legD2 5.5 0 (-10)) (legD 5.5 0 (-10)) ∧
      cos_beta (legD2 5.5 0 (-10)) (legD 5.5 0 (-10)) ≤ 1 :=
  acos_arguments_in_domain.2 5.5 0 (-10)
    (by rw [legD_witness_value, abs_L2_sub_L3]; norm_num)
    (by rw [legD_witness_value, L2, L3]; norm_num)

/-! ## C6 — out-of-range leg ids -/

/-- C6.  `computeLegIK` rejects an out-of-range leg id before touching the
origin table or the outputs, but `debugLegIK` has no id guard at all: its
first action is the table read `leg_origins[leg_number - 1]`, which for ids
0 and 7 is an out-of-bounds read (undefined behavior, `none` in the model)
rather than a clean failure signal. -/
theorem debugLegIK_reads_table_unguarded :
    (∀ x y z q1 q2 q3 : ℝ, computeLegIK 7 x y z q1 q2 q3 = (false, q1, q2, q3)) ∧
    (∀ x y z q1 q2 q3 : ℝ, computeLegIK 0 x y z q1 q2 q3 = (false, q1, q2, q3)) ∧
    (∀ x y z : ℝ, debugLegIK 7 x y z = none) ∧
    (∀ x y z : ℝ, debugLegIK 0 x y z = none) := by
  refine ⟨fun x y z q1 q2 q3 => computeLegIK_invalid 7 x y z q1 q2 q3 (by norm_num),
    fun x y z q1 q2 q3 => computeLegIK_invalid 0 x y z q1 q2 q3 (by norm_num),
    fun x y z => ?_, fun x y z => ?_⟩ <;>
  · rw [debugLegIK, show legOriginAt _ = none by simp [legOriginAt]]
    rfl

/-! ## C10 — servo command clamping and PWM driver guards -/

/-- C10.  For every leg index and arbitrary joint angles, each of the three
servo angles issued by the wave/bipedal `setLegJointsWithOffset` and by the
test-path `setLegJoints` lies in [0, 180]; `PCA9685_SetServoAngle` itself
returns false and performs no write when the handle is null or unready or
the channel exceeds 15, and any write it performs carries an angle clamped
to [0, 180]. -/
theorem servo_commands_clamped :
    (∀ (i : Fin 6) (q1 q2 q3 : ℝ),
      (0 ≤ (Servo.waveServoAngles i q1 q2 q3).1 ∧
        (Servo.waveServoAngles i q1 q2 q3).1 ≤ 180) ∧
      (0 ≤ (Servo.waveServoAngles i q1 q2 q3).2.1 ∧
        (Servo.waveServoAngles i q1 q2 q3).2.1 ≤ 180) ∧
      (0 ≤ (Servo.waveServoAngles i q1 q2 q3).2.2 ∧
        (Servo.waveServoAngles i q1 q2 q3).2.2 ≤ 180)) ∧
    (∀ (i : Fin 6) (q1 q2 q3 : ℝ),
      (0 ≤ (Servo.bipedalServoAngles i q1 q2 q3).1 ∧
        (Servo.bipedalServoAngles i q1 q2 q3).1 ≤ 180) ∧
      (0 ≤ (Servo.bipedalServoAngles i q1 q2 q3).2.1 ∧
        (Servo.bipedalServoAngles i q1 q2 q3).2.1 ≤ 180) ∧
      (0 ≤ (Servo.bipedalServoAngles i q1 q2 q3).2.2 ∧
        (Servo.bipedalServoAngles i q1 q2 q3).2.2 ≤ 180)) ∧
    (∀ q1 q2 q3 : ℝ,
      (0 ≤ (Servo.testServoAngles q1 q2 q3).1 ∧ (Servo.testServoAngles q1 q2 q3).1 ≤ 180) ∧
      (0 ≤ (Servo.testServoAngles q1 q2 q3).2.1 ∧
        (Servo.testServoAngles q1 q2 q3).2.1 ≤ 180) ∧
      (0 ≤ (Servo.testServoAngles q1 q2 q3).2.2 ∧
        (Servo.testServoAngles q1 q2 q3).2.2 ≤ 180)) ∧
    (∀ (ch : ℕ) (a : ℝ), Servo.PCA9685_SetServoAngle none ch a = (false, none)) ∧
    (∀ (hh : Servo.PCA9685_Handle_t) (ch : ℕ) (a : ℝ), hh.ready = false →
      Servo.PCA9685_SetServoAngle (some hh) ch a = (false, none)) ∧
    (∀ (hh : Servo.PCA9685_Handle_t) (ch : ℕ) (a : ℝ), ch > 15 →
      Servo.PCA9685_SetServoAngle (some hh) ch a = (false, none)) ∧
    (∀ (hh : Servo.PCA9685_Handle_t) (ch : ℕ) (a : ℝ) (w : ℕ × ℝ),
      (Servo.PCA9685_SetServoAngle (some hh) ch a).2 = some w →
      0 ≤ w.2 ∧ w.2 ≤ 180) :=
  ⟨fun _ _ _ _ => ⟨clampServo_mem _, clampServo_mem _, clampServo_mem _⟩,
   fun _ _ _ _ => ⟨clampServo_mem _, clampServo_mem _, clampServo_mem _⟩,
   fun _ _ _ => ⟨clampServo_mem _, clampServo_mem _, clampServo_mem _⟩,
   fun _ _ => rfl,
   setServoAngle_unready,
   setServoAngle_badchannel,
   setServoAngle_write_mem⟩

/-- C10 witness: the clamping and guard facts at concrete inputs — wave leg
1 with saturating joint angles, an unready handle, channel 16, and a
successful write of the clamped angle 200 → 180. -/
theorem servo_commands_clamped_witness :
    (0 ≤ (Servo.waveServoAngles 0 100 (-100) 7).1 ∧
      (Servo.waveServoAngles 0 100 (-100) 7).1 ≤ 180) ∧
    Servo.PCA9685_SetServoAngle (some ⟨false⟩) 0 90 = (false, none) ∧
    Servo.PCA9685_SetServoAngle (some ⟨true⟩) 16 90 = (false, none) ∧
    (0 ≤ ((0 : ℕ), Servo.clampServo 200).2 ∧ ((0 : ℕ), Servo.clampServo 200).2 ≤ 180) :=
  ⟨(servo_commands_clamped.1 0 100 (-100) 7).1,
   servo_commands_clamped.2.2.2.2.1 ⟨false⟩ 0 90 rfl,
   servo_commands_clamped.2.2.2.2.2.1 ⟨true⟩ 16 90 (by norm_num),
   servo_commands_clamped.2.2.2.2.2.2 ⟨true⟩ 0 200 ((0 : ℕ), Servo.clampServo 200)
     (by rw [Servo.PCA9685_SetServoAngle, if_neg (by simp)])⟩

end HexStm
